import Mathlib

/-!
Shallow embedding of `src/run_imagecap_finetuning.py` (an image-captioning
fine-tuning script) and proofs about its repository-authored logic:
the batch collator (`DataCollatorWithPadding.__call__`), the architecture
dispatcher (`load_model`), the per-sample preprocessing (`prepare_dataset`),
the map-then-filter pipeline (`process_dataset`), and the dataset-loading /
validation phase of `main`.

Machine tensors are modelled as lists; token ids as `Nat`, label values as
`Int` (the loss-ignore sentinel is `-100`). Collaborator calls (image
processor, tokenizer, HTTP fetch) are parameters of the embedded functions,
so that the repository's own control flow is what the theorems are about.
-/

namespace ImageCap

/-! ## Batch collator: `DataCollatorWithPadding.__call__` (lines 133-154) -/

/-- A feature dict handed to the collator.  `input_ids = none` models a dict
that lacks the `input_ids` key (the malformed case the collator checks for);
`pixel_values` is kept abstract, since the collator's token logic never
inspects it. -/
structure CollatorFeature (α : Type) where
  pixel_values : α
  input_ids : Option (List Nat)
deriving DecidableEq

/-- The batch dict returned by the collator on success.  `input_ids` and
`attention_mask` come from `tokenizer.pad(..., padding=True)`, `labels` from
`labels[labels == pad_token_id] = -100`. -/
structure CollatorBatch (α : Type) where
  input_ids : List (List Nat)
  attention_mask : List (List Nat)
  pixel_values : List α
  labels : List (List Int)
deriving DecidableEq

/-- The `ValueError` raised at line 140: its message is
"Found \x7bcount\x7d/\x7btotal\x7d features without input_ids." -/
inductive CollatorError where
  | valueError (count total : Nat)
deriving DecidableEq

/-- Indices `i` at which `logger.error` fires in the validation loop (lines
135-138), counting from the given start index. -/
def missingIndicesAux {α : Type} : Nat → List (CollatorFeature α) → List Nat
  | _, [] => []
  | i, f :: fs =>
      if f.input_ids.isNone then i :: missingIndicesAux (i + 1) fs
      else missingIndicesAux (i + 1) fs

/-- Indices of the features lacking `input_ids`, in order (the `enumerate`
loop of lines 135-138). -/
def missingIndices {α : Type} (fs : List (CollatorFeature α)) : List Nat :=
  missingIndicesAux 0 fs

/-- Longest `input_ids` length in the batch: the width `tokenizer.pad` with
`padding=True` pads every row to. -/
def maxLen (idss : List (List Nat)) : Nat :=
  idss.foldl (fun m l => max m l.length) 0

/-- Right-pad a row with the pad token id to width `w`
(`tokenizer.pad` with `padding=True`, right padding side). -/
def padTo (padId : Nat) (w : Nat) (l : List Nat) : List Nat :=
  l ++ List.replicate (w - l.length) padId

/-- Attention mask row produced by `tokenizer.pad`: 1 on real tokens,
0 on padding. -/
def attnMask (w : Nat) (len : Nat) : List Nat :=
  List.replicate len 1 ++ List.replicate (w - len) 0

/-- Label masking of line 152, `labels[labels == pad_token_id] = -100`:
every entry EQUAL TO the pad token id (whether or not it is a padding
position) becomes -100; other entries keep their token id. -/
def maskLabel (padId : Nat) (t : Nat) : Int :=
  if t = padId then -100 else (t : Int)

/-- Outcome of one collator call: the indices written by `logger.error`
(line 137) plus either the raised `ValueError` or the returned batch. -/
structure CollatorResult (α : Type) where
  error_logs : List Nat
  result : Except CollatorError (CollatorBatch α)

/-- `DataCollatorWithPadding.__call__` (lines 133-154): validate that every
feature carries `input_ids` (raising `ValueError` with the count and total
after logging each offending index), then stack pixel values, pad
`input_ids` to the longest row, build the attention mask, and derive
`labels` by replacing every entry equal to `pad_token_id` with -100. -/
def dataCollatorCall {α : Type} (padId : Nat) (fs : List (CollatorFeature α)) :
    CollatorResult α :=
  let miss := missingIndices fs
  if miss.length > 0 then
    ⟨miss, .error (.valueError miss.length fs.length)⟩
  else
    let idss := fs.map (fun f => f.input_ids.getD [])
    let w := maxLen idss
    ⟨miss, .ok
      { input_ids := idss.map (padTo padId w)
        attention_mask := idss.map (fun l => attnMask w l.length)
        pixel_values := fs.map (fun f => f.pixel_values)
        labels := (idss.map (padTo padId w)).map (fun row => row.map (maskLabel padId)) }⟩

/-! Helper lemmas about the collator. -/

theorem missingIndicesAux_nil_of_all_some {α : Type} (fs : List (CollatorFeature α))
    (h : ∀ f ∈ fs, f.input_ids.isSome = true) :
    ∀ i, missingIndicesAux i fs = [] := by
  induction fs with
  | nil => intro i; rfl
  | cons f fs ih =>
      intro i
      have hf : f.input_ids.isSome = true := h f (List.mem_cons_self f fs)
      have hrest : ∀ g ∈ fs, g.input_ids.isSome = true := by
        intro g hg; exact h g (List.mem_cons_of_mem f hg)
      obtain ⟨x, hx⟩ := Option.isSome_iff_exists.mp hf
      simp [missingIndicesAux, hx, ih hrest (i + 1)]

theorem le_foldl_max (idss : List (List Nat)) (a : Nat) :
    a ≤ idss.foldl (fun m r => max m r.length) a := by
  induction idss generalizing a with
  | nil => simp
  | cons x xs ih =>
      calc a ≤ max a x.length := le_max_left _ _
        _ ≤ xs.foldl (fun m r => max m r.length) (max a x.length) := ih _
        _ = (x :: xs).foldl (fun m r => max m r.length) a := by simp [List.foldl_cons]

theorem length_le_foldl_max (idss : List (List Nat)) (a : Nat) (l : List Nat)
    (h : l ∈ idss) : l.length ≤ idss.foldl (fun m r => max m r.length) a := by
  induction idss generalizing a with
  | nil => exact absurd h (List.not_mem_nil l)
  | cons x xs ih =>
      rcases List.mem_cons.mp h with h1 | h1
      · subst h1
        calc l.length ≤ max a l.length := le_max_right _ _
          _ ≤ xs.foldl (fun m r => max m r.length) (max a l.length) := le_foldl_max _ _
          _ = (l :: xs).foldl (fun m r => max m r.length) a := by simp [List.foldl_cons]
      · simpa [List.foldl_cons] using ih (max a x.length) h1

theorem length_le_maxLen (idss : List (List Nat)) (l : List Nat) (h : l ∈ idss) :
    l.length ≤ maxLen idss :=
  length_le_foldl_max idss 0 l h

theorem padTo_length (padId w : Nat) (l : List Nat) (h : l.length ≤ w) :
    (padTo padId w l).length = w := by
  simp [padTo]
  omega

/-! ## Model dispatcher: `load_model` (lines 156-195) -/

/-- Does the character list `s` start with the character list `pat`? -/
def charsStartWith : List Char → List Char → Bool
  | _, [] => true
  | [], _ :: _ => false
  | c :: cs, p :: ps => (c = p) && charsStartWith cs ps

/-- Does the character list `s` contain `pat` as a contiguous run? -/
def charsContain : List Char → List Char → Bool
  | [], pat => pat.isEmpty
  | c :: cs, pat => charsStartWith (c :: cs) pat || charsContain cs pat

/-- Python's substring test `pat in s` on strings. -/
def strIn (pat s : String) : Bool :=
  charsContain s.toList pat.toList

/-- The two generic loader categories the dispatcher chooses between. -/
inductive AutoClass where
  | causalLM
  | vision2Seq
deriving DecidableEq

/-- The dispatch table `model_class_mapping` of lines 168-172, in its
insertion (= iteration) order. -/
def model_class_mapping : List (String × AutoClass) :=
  [("GitForCausalLM", AutoClass.causalLM),
   ("BlipForConditionalGeneration", AutoClass.vision2Seq),
   ("VisionEncoderDecoderModel", AutoClass.vision2Seq)]

/-- Outcome of `load_model`: a model instantiated through a loader category,
`None` returned after the unknown-architecture warning (line 188-189), or
the `ValueError` of line 178. -/
inductive LoadModelResult where
  | model (c : AutoClass)
  | noModel
  | configError (msg : String)
deriving DecidableEq

/-- Python truthiness of `config.architectures` combined with subscripting:
`config.architectures[0] if config.architectures else None` yields `None`
when the field is `None` (absent) or the empty list, else the first entry. -/
def firstArchitecture : Option (List String) → Option String
  | none => none
  | some [] => none
  | some (a :: _) => some a

/-- `load_model` (lines 156-195): take the first declared architecture (or
`None`), raise `ValueError` when `not architecture` (i.e. it is `None` or the
empty string), otherwise scan `model_class_mapping` in order for the first
fragment that is a substring of the architecture name; on a hit instantiate
through that category, on a miss log a warning and return `None`. -/
def load_model (checkpoint : String) (architectures : Option (List String)) :
    LoadModelResult :=
  match firstArchitecture architectures with
  | none => .configError ("No architecture found in config for " ++ checkpoint)
  | some a =>
      if a = "" then .configError ("No architecture found in config for " ++ checkpoint)
      else
        match model_class_mapping.find? (fun p => strIn p.1 a) with
        | some p => .model p.2
        | none => .noModel

/-! ## Dataset preparation: `prepare_dataset` (lines 287-315) -/

/-- The image field of a Raw Sample: either an in-memory decoded
`PIL.Image.Image` (kept abstract as `Img`) or a URL string. -/
inductive ImageField (Img : Type) where
  | pil (img : Img)
  | url (u : String)

/-- One row of the raw dataset: an image field and a caption. -/
structure RawSample (Img : Type) where
  image : ImageField Img
  text : String

/-- What `requests.get` / `raise_for_status` / `Image.open` jointly produce
for a URL: a decoded image, a network error (`requests.RequestException`,
timeouts included), a non-2xx status (`HTTPError` out of
`raise_for_status`, also a `RequestException`), or bytes that cannot be
decoded as an image (`IOError` out of `Image.open`).  All three failure
constructors are caught by the `except` clause of line 313. -/
inductive FetchOutcome (Img : Type) where
  | ok (img : Img)
  | networkError
  | badStatus (code : Nat)
  | undecodable

/-- True on the fetch outcomes the `except (RequestException, IOError)`
clause catches. -/
def fetchFails {Img : Type} : FetchOutcome Img → Bool
  | .ok _ => false
  | .networkError => true
  | .badStatus _ => true
  | .undecodable => true

/-- The Encoded Sample produced per row: all three fields `none` is the
"unusable" drop marker. -/
structure EncodedSample (Pix : Type) where
  pixel_values : Option Pix
  input_ids : Option (List Nat)
  attention_mask : Option (List Nat)
deriving DecidableEq

/-- Result of one `prepare_dataset` call: the Encoded Sample, the warning
lines emitted through `logger.warning`, and the URLs actually fetched over
the network (empty = no network I/O). -/
structure PrepResult (Pix : Type) where
  sample : EncodedSample Pix
  warnings : List String
  fetched : List String
deriving DecidableEq

/-- An uncaught Python exception; `prepare_dataset` itself never produces
one (its `try` block catches every exception its URL branch can raise), and
the `Except` wrapper makes that provable rather than implicit. -/
inductive PyExn where
  | exn (msg : String)
deriving DecidableEq

/-- `prepare_dataset` (lines 287-315), parametrised by the collaborators:
`image_processor` (image to pixel values), `tokenizer` (caption to token
ids and attention mask) and the HTTP environment `fetch`.  An in-memory
image is encoded directly; a URL is fetched once, and any caught failure
logs one warning naming the URL and returns the all-`none` sample.  (The
`img is None` check of line 303 is dead: `Image.open` never returns
`None`, which is why no model branch corresponds to its warning text.) -/
def prepare_dataset {Img Pix : Type} (image_processor : Img → Pix)
    (tokenizer : String → List Nat × List Nat)
    (fetch : String → FetchOutcome Img) (sample : RawSample Img) :
    Except PyExn (PrepResult Pix) :=
  match sample.image with
  | .pil img =>
      .ok ⟨⟨some (image_processor img), some (tokenizer sample.text).1,
            some (tokenizer sample.text).2⟩, [], []⟩
  | .url u =>
      match fetch u with
      | .ok img =>
          .ok ⟨⟨some (image_processor img), some (tokenizer sample.text).1,
                some (tokenizer sample.text).2⟩, [], [u]⟩
      | .networkError =>
          .ok ⟨⟨none, none, none⟩,
               ["Skipping sample due to error fetching URL " ++ u], [u]⟩
      | .badStatus _ =>
          .ok ⟨⟨none, none, none⟩,
               ["Skipping sample due to error fetching URL " ++ u], [u]⟩
      | .undecodable =>
          .ok ⟨⟨none, none, none⟩,
               ["Skipping sample due to error fetching URL " ++ u], [u]⟩

/-! ## Map-then-filter pipeline: `process_dataset` (lines 319-328) -/

/-- The filter predicate of lines 325-327: keep a row iff none of the three
fields is `None`. -/
def isUsable {Pix : Type} (s : EncodedSample Pix) : Bool :=
  s.pixel_values.isSome && s.input_ids.isSome && s.attention_mask.isSome

/-- The Encoded Sample a successful `prepare_dataset` call stored in the
mapped dataset row (the `Except` layer never fires, see `prepare_dataset`). -/
def preparedSample {Img Pix : Type} (image_processor : Img → Pix)
    (tokenizer : String → List Nat × List Nat)
    (fetch : String → FetchOutcome Img) (row : RawSample Img) :
    EncodedSample Pix :=
  match prepare_dataset image_processor tokenizer fetch row with
  | .ok r => r.sample
  | .error _ => ⟨none, none, none⟩

/-- `process_dataset` (lines 319-328): map `prepare_dataset` over every row,
then filter out every row with a `None` field. -/
def process_dataset {Img Pix : Type} (image_processor : Img → Pix)
    (tokenizer : String → List Nat × List Nat)
    (fetch : String → FetchOutcome Img) (rows : List (RawSample Img)) :
    List (EncodedSample Pix) :=
  (rows.map (preparedSample image_processor tokenizer fetch)).filter isUsable

/-! ## Argument schema (lines 60-120) -/

/-- The field names declared on the `DataTrainingArguments` dataclass
(lines 61-120), in declaration order.  An attribute access on a name not in
this list raises `AttributeError`. -/
def dataTrainingArgumentFields : List String :=
  ["dataset_name", "dataset_config_name", "max_train_samples",
   "max_eval_samples", "image_column_name", "text_column_name",
   "preprocessing_only", "train_split_name", "eval_split_name",
   "requests_timeout"]

/-- The data-argument attribute names the evaluation-split loading branch
(lines 244-250) reads, in evaluation order: `load_dataset` arguments are
evaluated left to right, so `dataset_name_or_path` is read first. -/
def evalBranchDataAttrs : List String :=
  ["dataset_name_or_path", "dataset_subset_name", "eval_split_name"]

/-! ## Dataset loading and validation phase of `main` (lines 236-345) -/

/-- Python truthiness of an optional string (`None` and the empty string
are falsy). -/
def truthy : Option String → Bool
  | none => false
  | some s => s ≠ ""

/-- Load / split / validation events of `main`, in the order the source
performs them.  `trainTestSplit pct` records the
`train_test_split(test_size=0.15)` call of line 252 with its held-out
percentage. -/
inductive MainStep where
  | loadTrainSplit
  | loadEvalSplit
  | trainTestSplit (heldOutPct : Nat)
  | loadConfig
  | loadImageProcessor
  | loadTokenizer
  | loadModelCall
deriving DecidableEq

/-- How `main` terminates during this phase. `attrError` is the
`AttributeError` raised by reading a dataclass attribute that does not
exist; `keyError` is `raw_datasets["train"]` without a train split;
`stopIteration` is `next(iter(...))` on an empty `DatasetDict`;
`columnNotFound` is the `ValueError` of lines 257/259, whose message names
the missing column. -/
inductive MainError where
  | attrError (attr : String)
  | keyError (key : String)
  | stopIteration
  | columnNotFound (column : String)
deriving DecidableEq

/-- Where the `validation` entry of `raw_datasets` came from, when one was
created: a separately loaded evaluation split, or the held-out part of
`train_test_split`. -/
inductive ValidationSource where
  | evalSplitLoad
  | heldOutSplit (heldOutPct : Nat)
deriving DecidableEq

/-- The run configuration `main` branches on: the relevant parsed argument
fields plus the column names of the loaded dataset. -/
structure RunConfig where
  do_train : Bool
  do_eval : Bool
  eval_split_name : Option String
  image_column_name : String
  text_column_name : String
  columns : List String
  preprocessing_only : Bool
deriving DecidableEq

/-- Trace of one run of the phase: the steps performed before termination,
the error that aborted the run (if any), and the provenance of the
validation dataset (if one was created). -/
structure MainRun where
  steps : List MainStep
  error : Option MainError
  validation : Option ValidationSource
deriving DecidableEq

/-- Column checks and collaborator loads (lines 256-277 and 339/345),
entered with the steps so far and what `raw_datasets` holds. -/
def mainAfterLoad (cfg : RunConfig) (steps : List MainStep) (hasTrain : Bool)
    (validation : Option ValidationSource) : MainRun :=
  if !(hasTrain || validation.isSome) then
    ⟨steps, some .stopIteration, validation⟩
  else if cfg.image_column_name ∉ cfg.columns then
    ⟨steps, some (.columnNotFound cfg.image_column_name), validation⟩
  else if cfg.text_column_name ∉ cfg.columns then
    ⟨steps, some (.columnNotFound cfg.text_column_name), validation⟩
  else
    let steps := steps ++ [MainStep.loadConfig, MainStep.loadImageProcessor,
                           MainStep.loadTokenizer]
    if cfg.preprocessing_only then ⟨steps, none, validation⟩
    else ⟨steps ++ [MainStep.loadModelCall], none, validation⟩

/-- The dataset-loading and validation phase of `main` (lines 236-345).
A train split is loaded when `do_train` is set (lines 237-243).  The
evaluation branch (lines 244-250) is taken when `do_eval` is set and
`eval_split_name is not None`; it begins by reading
`data_args.dataset_name_or_path`, an attribute absent from
`DataTrainingArguments`, so it raises `AttributeError` before loading
anything.  The `elif not data_args.eval_split_name` branch (lines 251-254)
splits `raw_datasets["train"]` 85/15 (raising `KeyError` when no train
split was loaded) and installs the held-out 15% as the validation set.
Then the image/text column names are checked against the loaded dataset
(lines 256-259) before the config, image processor, tokenizer (lines
263-277) and - unless `preprocessing_only` - the model (line 345) are
loaded. -/
def main (cfg : RunConfig) : MainRun :=
  let steps0 := if cfg.do_train then [MainStep.loadTrainSplit] else []
  if cfg.do_eval && cfg.eval_split_name.isSome then
    ⟨steps0, some (.attrError "dataset_name_or_path"), none⟩
  else if !(truthy cfg.eval_split_name) then
    if !cfg.do_train then
      ⟨steps0, some (.keyError "train"), none⟩
    else
      mainAfterLoad cfg (steps0 ++ [MainStep.trainTestSplit 15]) true
        (some (.heldOutSplit 15))
  else
    mainAfterLoad cfg steps0 cfg.do_train none

/-! ## Further helper lemmas -/

/-- The token-id rows the collator pads: `f['input_ids']` per feature. -/
def featIds {α : Type} (fs : List (CollatorFeature α)) : List (List Nat) :=
  fs.map fun f => f.input_ids.getD []

theorem map_maskLabel_padTo (padId w : Nat) (l : List Nat) :
    (padTo padId w l).map (maskLabel padId) =
      l.map (maskLabel padId) ++ List.replicate (w - l.length) (-100) := by
  simp [padTo, maskLabel, List.map_append, List.map_replicate]

theorem mem_missingIndicesAux {α : Type} (fs : List (CollatorFeature α)) :
    ∀ (start j : Nat), (j ∈ missingIndicesAux start fs ↔
      ∃ d, j = start + d ∧ ∃ f, fs.get? d = some f ∧ f.input_ids = none) := by
  induction fs with
  | nil => intro start j; simp [missingIndicesAux]
  | cons f fs ih =>
      intro start j
      by_cases hf : f.input_ids = none
      · simp only [missingIndicesAux, hf, Option.isNone_none, if_true, List.mem_cons]
        constructor
        · rintro (rfl | hj)
          · exact ⟨0, by omega, f, rfl, hf⟩
          · obtain ⟨d, rfl, g, hg, hgn⟩ := (ih (start + 1) j).mp hj
            refine ⟨d + 1, by omega, g, ?_, hgn⟩
            simpa using hg
        · rintro ⟨d, rfl, g, hg, hgn⟩
          cases d with
          | zero => left; omega
          | succ d' =>
              right
              refine (ih (start + 1) _).mpr ⟨d', by omega, g, ?_, hgn⟩
              simpa using hg
      · have hf' : f.input_ids.isNone = false := by
          cases hx : f.input_ids with
          | none => exact absurd hx hf
          | some v => rfl
        simp only [missingIndicesAux, hf', if_neg Bool.false_ne_true]
        rw [ih (start + 1) j]
        constructor
        · rintro ⟨d, rfl, g, hg, hgn⟩
          refine ⟨d + 1, by omega, g, ?_, hgn⟩
          simpa using hg
        · rintro ⟨d, rfl, g, hg, hgn⟩
          cases d with
          | zero =>
              simp only [List.get?] at hg
              cases hg
              exact absurd hgn hf
          | succ d' =>
              refine ⟨d', by omega, g, ?_, hgn⟩
              simpa using hg

theorem mem_missingIndices {α : Type} (fs : List (CollatorFeature α)) (i : Nat) :
    i ∈ missingIndices fs ↔ ∃ f, fs.get? i = some f ∧ f.input_ids = none := by
  rw [missingIndices, mem_missingIndicesAux fs 0 i]
  constructor
  · rintro ⟨d, rfl, hd⟩; simpa using hd
  · intro hd; exact ⟨i, by omega, hd⟩

theorem missingIndicesAux_length {α : Type} (fs : List (CollatorFeature α)) :
    ∀ start : Nat, (missingIndicesAux start fs).length =
      (fs.filter fun f => f.input_ids.isNone).length := by
  induction fs with
  | nil => intro start; rfl
  | cons f fs ih =>
      intro start
      by_cases hf : f.input_ids.isNone = true
      · simp [missingIndicesAux, hf, List.filter_cons, ih (start + 1)]
      · simp [missingIndicesAux, hf, List.filter_cons, ih (start + 1)]

/-! ## Claim C1 -/

/-- C1: the claim states that for every batch, `labels` is the padded
`input_ids` with -100 exactly at the PADDING positions and the original
token id at every non-padded position.  The code masks by VALUE
(`labels[labels == pad_token_id] = -100`), so a real token equal to the pad
token id is masked too.  Concretely, with pad id 0 and rows `[0, 5]` and
`[7]`: row 0 needs no padding (its attention mask is `[1, 1]`), yet
`labels` row 0 is `[-100, 5]`, not the claimed `[0, 5]`. -/
theorem c1_counterexample :
    (dataCollatorCall (α := Unit) 0
        [⟨(), some [0, 5]⟩, ⟨(), some [7]⟩]).result =
      .ok ⟨[[0, 5], [7, 0]], [[1, 1], [1, 0]], [(), ()],
           [[-100, 5], [7, -100]]⟩ ∧
    [[-100, 5], [7, -100]] ≠ [[(0 : Int), 5], [7, -100]] :=
  ⟨rfl, by decide⟩

/-- C1 (amended): for every batch of features all carrying `input_ids`, the
collator succeeds; `input_ids` is right-padded with the pad token id to the
longest row, `attention_mask` is 1 on real tokens and 0 on padding, every
padded row has the common width, and `labels` is the padded `input_ids`
with -100 at every position whose TOKEN VALUE equals the pad token id -
which covers every padding position, and additionally any real token equal
to the pad id; all other positions keep their original token id. -/
theorem c1_collator_labels {α : Type} (padId : Nat)
    (fs : List (CollatorFeature α))
    (hall : ∀ f ∈ fs, f.input_ids.isSome = true) :
    ∃ b : CollatorBatch α,
      (dataCollatorCall padId fs).result = .ok b ∧
      b.input_ids = (featIds fs).map (padTo padId (maxLen (featIds fs))) ∧
      b.attention_mask =
        (featIds fs).map (fun l => attnMask (maxLen (featIds fs)) l.length) ∧
      b.labels = (featIds fs).map (fun l =>
        l.map (maskLabel padId) ++
          List.replicate (maxLen (featIds fs) - l.length) (-100)) ∧
      (∀ row ∈ b.input_ids, row.length = maxLen (featIds fs)) ∧
      (dataCollatorCall padId fs).error_logs = [] := by
  have hmiss : missingIndices fs = [] := missingIndicesAux_nil_of_all_some fs hall 0
  refine ⟨⟨(featIds fs).map (padTo padId (maxLen (featIds fs))),
           (featIds fs).map (fun l => attnMask (maxLen (featIds fs)) l.length),
           fs.map (fun f => f.pixel_values),
           ((featIds fs).map (padTo padId (maxLen (featIds fs)))).map
             (fun row => row.map (maskLabel padId))⟩,
         ?_, rfl, rfl, ?_, ?_, ?_⟩
  · simp [dataCollatorCall, hmiss, featIds]
  · rw [List.map_map]
    exact List.map_congr_left fun l _ => map_maskLabel_padTo padId _ l
  · intro row hrow
    obtain ⟨l, hl, rfl⟩ := List.mem_map.mp hrow
    exact padTo_length _ _ _ (length_le_maxLen _ _ hl)
  · simp [dataCollatorCall, hmiss]

/-- C1 witness: the spec's own example, rows of lengths `[3, 5, 2]` with pad
id 0 and no real token equal to 0: all rows come out at width 5, the
attention mask marks real vs. pad positions, and `labels` is -100 exactly
at the padded indices and the original token id elsewhere. -/
theorem c1_collator_labels_witness :
    (∃ b : CollatorBatch Unit,
      (dataCollatorCall 0 [⟨(), some [1, 2, 3]⟩, ⟨(), some [4, 5, 6, 7, 8]⟩,
          ⟨(), some [9, 10]⟩]).result = .ok b ∧
      b.input_ids = (featIds [⟨(), some [1, 2, 3]⟩, ⟨(), some [4, 5, 6, 7, 8]⟩,
          ⟨(), some [9, 10]⟩]).map (padTo 0 (maxLen (featIds
            [⟨(), some [1, 2, 3]⟩, ⟨(), some [4, 5, 6, 7, 8]⟩, ⟨(), some [9, 10]⟩]))) ∧
      b.attention_mask = (featIds [⟨(), some [1, 2, 3]⟩, ⟨(), some [4, 5, 6, 7, 8]⟩,
          ⟨(), some [9, 10]⟩]).map (fun l => attnMask (maxLen (featIds
            [⟨(), some [1, 2, 3]⟩, ⟨(), some [4, 5, 6, 7, 8]⟩, ⟨(), some [9, 10]⟩])) l.length) ∧
      b.labels = (featIds [⟨(), some [1, 2, 3]⟩, ⟨(), some [4, 5, 6, 7, 8]⟩,
          ⟨(), some [9, 10]⟩]).map (fun l =>
        l.map (maskLabel 0) ++ List.replicate (maxLen (featIds
          [⟨(), some [1, 2, 3]⟩, ⟨(), some [4, 5, 6, 7, 8]⟩, ⟨(), some [9, 10]⟩]) - l.length) (-100)) ∧
      (∀ row ∈ b.input_ids, row.length = maxLen (featIds
          [⟨(), some [1, 2, 3]⟩, ⟨(), some [4, 5, 6, 7, 8]⟩, ⟨(), some [9, 10]⟩])) ∧
      (dataCollatorCall 0 [⟨(), some [1, 2, 3]⟩, ⟨(), some [4, 5, 6, 7, 8]⟩,
          ⟨(), some [9, 10]⟩]).error_logs = []) ∧
    (dataCollatorCall (α := Unit) 0 [⟨(), some [1, 2, 3]⟩, ⟨(), some [4, 5, 6, 7, 8]⟩,
        ⟨(), some [9, 10]⟩]).result =
      .ok ⟨[[1, 2, 3, 0, 0], [4, 5, 6, 7, 8], [9, 10, 0, 0, 0]],
           [[1, 1, 1, 0, 0], [1, 1, 1, 1, 1], [1, 1, 0, 0, 0]],
           [(), (), ()],
           [[1, 2, 3, -100, -100], [4, 5, 6, 7, 8], [9, 10, -100, -100, -100]]⟩ :=
  ⟨c1_collator_labels 0 _ (by decide), rfl⟩

/-! ## Claim C5 -/

/-- C5: when at least one feature dict lacks `input_ids`, the collator
raises `ValueError` (a hard stop, no batch is produced), the `ValueError`
message carries the count of malformed samples and the batch size, and the
`logger.error` lines emitted before the raise list exactly the indices of
the malformed samples, in order. -/
theorem c5_collator_missing_ids {α : Type} (padId : Nat)
    (fs : List (CollatorFeature α))
    (h : ∃ f ∈ fs, f.input_ids = none) :
    (dataCollatorCall padId fs).result =
      .error (.valueError (missingIndices fs).length fs.length) ∧
    (dataCollatorCall padId fs).error_logs = missingIndices fs ∧
    (∀ i : Nat, i ∈ missingIndices fs ↔
      ∃ f, fs.get? i = some f ∧ f.input_ids = none) ∧
    (missingIndices fs).length =
      (fs.filter fun f => f.input_ids.isNone).length := by
  obtain ⟨f, hmem, hnone⟩ := h
  obtain ⟨i, hi⟩ := List.mem_iff_get?.mp hmem
  have hin : i ∈ missingIndices fs := (mem_missingIndices fs i).mpr ⟨f, hi, hnone⟩
  have hpos : (missingIndices fs).length > 0 := by
    cases hm : missingIndices fs with
    | nil => rw [hm] at hin; exact absurd hin (List.not_mem_nil i)
    | cons a l => simp
  refine ⟨?_, ?_, mem_missingIndices fs, missingIndicesAux_length fs 0⟩
  · simp [dataCollatorCall, hpos]
  · simp [dataCollatorCall, hpos]

/-- C5 witness: three features of which the second and third lack
`input_ids`: the collator raises `ValueError` reporting 2 of 3, after
logging indices 1 and 2. -/
theorem c5_collator_missing_ids_witness :
    (dataCollatorCall (α := Unit) 0
        [⟨(), some [1]⟩, ⟨(), none⟩, ⟨(), none⟩]).result =
      .error (.valueError 2 3) ∧
    (dataCollatorCall (α := Unit) 0
        [⟨(), some [1]⟩, ⟨(), none⟩, ⟨(), none⟩]).error_logs = [1, 2] := by
  have h := c5_collator_missing_ids (α := Unit) 0
    [⟨(), some [1]⟩, ⟨(), none⟩, ⟨(), none⟩] ⟨⟨(), none⟩, by decide, rfl⟩
  exact ⟨h.1, h.2.1⟩

/-! ## Claim C2 -/

/-- C2: the claim states that for EVERY non-empty architectures list the
dispatcher resolves by substring match, with a no-fragment match (and ""
matches no fragment) giving the warn-and-return-None outcome.  The code
instead treats a falsy first name like a missing one: for `[""]` (non-empty
list, first name the empty string) `not architecture` is true, so the
`ValueError` of line 178 is raised rather than `None` returned. -/
theorem c2_counterexample :
    load_model "ckpt" (some [""]) =
      .configError ("No architecture found in config for " ++ "ckpt") ∧
    load_model "ckpt" (some [""]) ≠ .noModel :=
  ⟨rfl, by decide⟩

/-- C2 (amended): for every configuration whose architectures list is
non-empty AND whose first entry is a non-empty string, the dispatcher
resolves the first entry against the fixed table in its iteration order,
first match winning: `GitForCausalLM` picks the causal-LM loader,
`BlipForConditionalGeneration` and `VisionEncoderDecoderModel` pick the
vision-to-sequence loader, a name containing no fragment (e.g.
`SomeUnknownArch`) yields the warn-and-return-None outcome, and a name
containing several fragments yields the category of the first table entry
that matches (the causal-LM loader when both `GitForCausalLM` and
`BlipForConditionalGeneration` occur).  An empty-string first entry is
treated like an empty list: the `ValueError` of line 178. -/
theorem c2_load_model_dispatch (ckpt a : String) (rest : List String)
    (h : a ≠ "") :
    (∀ p : String × AutoClass,
        model_class_mapping.find? (fun q => strIn q.1 a) = some p →
        load_model ckpt (some (a :: rest)) = .model p.2) ∧
    (model_class_mapping.find? (fun q => strIn q.1 a) = none →
        load_model ckpt (some (a :: rest)) = .noModel) ∧
    load_model ckpt (some ("GitForCausalLM" :: rest)) = .model .causalLM ∧
    load_model ckpt (some ("BlipForConditionalGeneration" :: rest)) =
      .model .vision2Seq ∧
    load_model ckpt (some ("VisionEncoderDecoderModel" :: rest)) =
      .model .vision2Seq ∧
    load_model ckpt (some ("SomeUnknownArch" :: rest)) = .noModel ∧
    load_model ckpt
        (some ("XBlipForConditionalGenerationGitForCausalLM" :: rest)) =
      .model .causalLM := by
  refine ⟨?_, ?_, rfl, rfl, rfl, rfl, rfl⟩
  · intro p hp
    simp [load_model, firstArchitecture, h, hp]
  · intro hp
    simp [load_model, firstArchitecture, h, hp]

/-- C2 witness: the dispatcher at the spec's concrete inputs. -/
theorem c2_load_model_dispatch_witness :
    load_model "m" (some ["GitForCausalLM"]) = .model .causalLM ∧
    load_model "m" (some ["SomeUnknownArch"]) = .noModel := by
  have h := c2_load_model_dispatch "m" "GitForCausalLM" [] (by decide)
  exact ⟨h.2.2.1, h.2.2.2.2.2.1⟩

/-! ## Claim C6 -/

/-- C6: when the configuration's architectures list is absent (`None`) or
empty, `load_model` raises the `ValueError` of line 178 (no model is
returned, and nothing catches this error: `main` has no handler around the
`load_model` call of line 345). -/
theorem c6_load_model_no_architecture (ckpt : String)
    (archs : Option (List String)) (h : archs = none ∨ archs = some []) :
    load_model ckpt archs =
      .configError ("No architecture found in config for " ++ ckpt) := by
  rcases h with rfl | rfl <;> rfl

/-- C6 witness: an absent architectures field on a concrete checkpoint. -/
theorem c6_load_model_no_architecture_witness :
    load_model "microsoft/git-base" none =
      .configError ("No architecture found in config for " ++
        "microsoft/git-base") :=
  c6_load_model_no_architecture "microsoft/git-base" none (Or.inl rfl)

/-! ## Claim C3 -/

/-- C3: for a URL sample whose fetch fails in any of the caught ways
(network error / timeout, non-2xx status via `raise_for_status`, or bytes
that `Image.open` cannot decode), `prepare_dataset` returns normally (no
exception escapes): the Encoded Sample has all three fields null, and the
warning log consists of exactly one line, which names the offending URL. -/
theorem c3_prepare_dataset_url_failure {Img Pix : Type}
    (image_processor : Img → Pix) (tokenizer : String → List Nat × List Nat)
    (fetch : String → FetchOutcome Img) (u text : String)
    (hfail : fetchFails (fetch u) = true) :
    prepare_dataset image_processor tokenizer fetch ⟨.url u, text⟩ =
      .ok ⟨⟨none, none, none⟩,
           ["Skipping sample due to error fetching URL " ++ u], [u]⟩ := by
  cases hf : fetch u with
  | ok img => rw [hf] at hfail; simp [fetchFails] at hfail
  | networkError => simp [prepare_dataset, hf]
  | badStatus code => simp [prepare_dataset, hf]
  | undecodable => simp [prepare_dataset, hf]

/-- C3 witness: a URL whose fetch times out: the sample is the all-null
drop marker and the single warning names the URL. -/
theorem c3_prepare_dataset_url_failure_witness :
    prepare_dataset (fun _ : Unit => ()) (fun _ => ([], []))
        (fun _ => FetchOutcome.networkError)
        ⟨.url "http://x/bad.jpg", "broken"⟩ =
      .ok ⟨⟨none, none, none⟩,
           ["Skipping sample due to error fetching URL " ++ "http://x/bad.jpg"],
           ["http://x/bad.jpg"]⟩ :=
  c3_prepare_dataset_url_failure (fun _ : Unit => ()) (fun _ => ([], []))
    (fun _ => FetchOutcome.networkError) "http://x/bad.jpg" "broken" rfl

/-! ## Claim C7 -/

/-- C7: for a Raw Sample whose image field is an in-memory decoded image,
`prepare_dataset` encodes it directly: the result does not depend on the
HTTP environment `fetch` at all, the list of fetched URLs is empty (no
network I/O), no warning is logged, and the three fields hold the encoded
pixel values, token ids and attention mask. -/
theorem c7_prepare_dataset_in_memory {Img Pix : Type}
    (image_processor : Img → Pix) (tokenizer : String → List Nat × List Nat)
    (fetch : String → FetchOutcome Img) (img : Img) (text : String) :
    prepare_dataset image_processor tokenizer fetch ⟨.pil img, text⟩ =
      .ok ⟨⟨some (image_processor img), some (tokenizer text).1,
            some (tokenizer text).2⟩, [], []⟩ :=
  rfl

/-! ## Claim C4 -/

/-- C4: after the map-then-filter pipeline, no Encoded Sample has a null
`pixel_values`, `input_ids`, or `attention_mask`, and running the same
filter again returns the dataset unchanged. -/
theorem c4_process_dataset_filter {Img Pix : Type}
    (image_processor : Img → Pix) (tokenizer : String → List Nat × List Nat)
    (fetch : String → FetchOutcome Img) (rows : List (RawSample Img)) :
    (∀ s ∈ process_dataset image_processor tokenizer fetch rows,
        s.pixel_values ≠ none ∧ s.input_ids ≠ none ∧
        s.attention_mask ≠ none) ∧
    (process_dataset image_processor tokenizer fetch rows).filter isUsable =
      process_dataset image_processor tokenizer fetch rows := by
  constructor
  · intro s hs
    have hu : isUsable s = true := (List.mem_filter.mp hs).2
    simp only [isUsable, Bool.and_eq_true, Option.isSome_iff_ne_none] at hu
    exact ⟨hu.1.1, hu.1.2, hu.2⟩
  · exact List.filter_eq_self.mpr fun s hs => (List.mem_filter.mp hs).2

/-- C4 witness: the spec's end-to-end scenario: one in-memory image, one
good URL, one bad URL: the post-filter dataset has exactly the two usable
rows and re-filtering leaves it unchanged. -/
theorem c4_process_dataset_filter_witness :
    (process_dataset (fun _ : Unit => ()) (fun _ => ([1], [1]))
        (fun u => if u = "http://x/cat.jpg" then .ok () else .networkError)
        [⟨.pil (), "a dog"⟩, ⟨.url "http://x/cat.jpg", "a cat"⟩,
         ⟨.url "http://x/broken.jpg", "broken"⟩]).filter isUsable =
      process_dataset (fun _ : Unit => ()) (fun _ => ([1], [1]))
        (fun u => if u = "http://x/cat.jpg" then .ok () else .networkError)
        [⟨.pil (), "a dog"⟩, ⟨.url "http://x/cat.jpg", "a cat"⟩,
         ⟨.url "http://x/broken.jpg", "broken"⟩] ∧
    process_dataset (fun _ : Unit => ()) (fun _ => ([1], [1]))
        (fun u => if u = "http://x/cat.jpg" then .ok () else .networkError)
        [⟨.pil (), "a dog"⟩, ⟨.url "http://x/cat.jpg", "a cat"⟩,
         ⟨.url "http://x/broken.jpg", "broken"⟩] =
      [⟨some (), some [1], some [1]⟩, ⟨some (), some [1], some [1]⟩] :=
  ⟨(c4_process_dataset_filter (fun _ : Unit => ()) (fun _ => ([1], [1]))
      (fun u => if u = "http://x/cat.jpg" then .ok () else .networkError)
      [⟨.pil (), "a dog"⟩, ⟨.url "http://x/cat.jpg", "a cat"⟩,
       ⟨.url "http://x/broken.jpg", "broken"⟩]).2, rfl⟩

/-! ## Claims C8, C9, C10: the load phase of `main` -/

theorem mainAfterLoad_column_error (cfg : RunConfig) (steps : List MainStep)
    (valid : Option ValidationSource)
    (hmiss : cfg.image_column_name ∉ cfg.columns ∨
      cfg.text_column_name ∉ cfg.columns) :
    ∃ c, mainAfterLoad cfg steps true valid =
        ⟨steps, some (.columnNotFound c), valid⟩ ∧
      (c = cfg.image_column_name ∨ c = cfg.text_column_name) ∧
      c ∉ cfg.columns := by
  by_cases hi : cfg.image_column_name ∈ cfg.columns
  · have htext : cfg.text_column_name ∉ cfg.columns := by
      rcases hmiss with h | h
      · exact absurd hi h
      · exact h
    exact ⟨cfg.text_column_name, by simp [mainAfterLoad, hi, htext],
           Or.inr rfl, htext⟩
  · exact ⟨cfg.image_column_name, by simp [mainAfterLoad, hi], Or.inl rfl, hi⟩

theorem mainAfterLoad_facts (cfg : RunConfig) (steps : List MainStep)
    (hasTrain : Bool) (valid : Option ValidationSource) :
    (∀ s ∈ steps, s ∈ (mainAfterLoad cfg steps hasTrain valid).steps) ∧
    (mainAfterLoad cfg steps hasTrain valid).validation = valid := by
  unfold mainAfterLoad
  split_ifs <;> refine ⟨fun s hs => ?_, rfl⟩ <;> simp [List.mem_append, hs]

/-- C8: the claim states that for EVERY run with a misconfigured column
name, the failure is the `ValueError` naming the column.  A run that takes
the evaluation-split loading branch (`do_eval` set and a non-null
`eval_split_name`) never reaches the column check: it dies first with the
`AttributeError` on `data_args.dataset_name_or_path` (line 246), even when
the image column is indeed missing from the dataset (here `image` is not
among the columns `["caption"]`, yet no column-naming error is raised). -/
theorem c8_counterexample :
    (main ⟨true, true, some "test", "image", "text", ["caption"], false⟩).error =
      some (.attrError "dataset_name_or_path") ∧
    (main ⟨true, true, some "test", "image", "text", ["caption"], false⟩).error ≠
      some (.columnNotFound "image") :=
  ⟨rfl, by decide⟩

/-- C8 (amended): for every run that loads a training split (`do_train`
set) and does not take the evaluation-split loading branch (`do_eval`
unset, or `eval_split_name` null), if the configured image or text column
is absent from the loaded dataset's columns, the run stops with the
`ValueError` naming a missing column (one of the two configured names),
and no config, image processor, tokenizer or model load is ever
performed. -/
theorem c8_column_validation (cfg : RunConfig) (htrain : cfg.do_train = true)
    (hbranch : cfg.do_eval = false ∨ cfg.eval_split_name = none)
    (hmiss : cfg.image_column_name ∉ cfg.columns ∨
      cfg.text_column_name ∉ cfg.columns) :
    (∃ c, (main cfg).error = some (.columnNotFound c) ∧
       (c = cfg.image_column_name ∨ c = cfg.text_column_name) ∧
       c ∉ cfg.columns) ∧
    MainStep.loadConfig ∉ (main cfg).steps ∧
    MainStep.loadImageProcessor ∉ (main cfg).steps ∧
    MainStep.loadTokenizer ∉ (main cfg).steps ∧
    MainStep.loadModelCall ∉ (main cfg).steps := by
  have hguard : (cfg.do_eval && cfg.eval_split_name.isSome) = false := by
    rcases hbranch with h | h <;> simp [h]
  by_cases htr : truthy cfg.eval_split_name = true
  · have hmain : main cfg = mainAfterLoad cfg [MainStep.loadTrainSplit]
        true none := by
      simp [main, hguard, htr, htrain]
    obtain ⟨c, heq, hc, hcn⟩ :=
      mainAfterLoad_column_error cfg [MainStep.loadTrainSplit] none hmiss
    rw [hmain, heq]
    exact ⟨⟨c, rfl, hc, hcn⟩, by simp, by simp, by simp, by simp⟩
  · have hmain : main cfg = mainAfterLoad cfg
        ([MainStep.loadTrainSplit] ++ [MainStep.trainTestSplit 15]) true
        (some (.heldOutSplit 15)) := by
      simp [main, hguard, htr, htrain]
    obtain ⟨c, heq, hc, hcn⟩ := mainAfterLoad_column_error cfg
      ([MainStep.loadTrainSplit] ++ [MainStep.trainTestSplit 15])
      (some (.heldOutSplit 15)) hmiss
    rw [hmain, heq]
    exact ⟨⟨c, rfl, hc, hcn⟩, by simp, by simp, by simp, by simp⟩

/-- C8 witness: a training-only run whose configured image column `img` is
not among the dataset columns: the run stops with the `ValueError` naming
`img`, before any collaborator load. -/
theorem c8_column_validation_witness :
    (∃ c, (main ⟨true, false, none, "img", "text",
        ["image", "text"], false⟩).error = some (.columnNotFound c) ∧
       (c = "img" ∨ c = "text") ∧ c ∉ ["image", "text"]) ∧
    MainStep.loadConfig ∉
      (main ⟨true, false, none, "img", "text", ["image", "text"], false⟩).steps ∧
    MainStep.loadImageProcessor ∉
      (main ⟨true, false, none, "img", "text", ["image", "text"], false⟩).steps ∧
    MainStep.loadTokenizer ∉
      (main ⟨true, false, none, "img", "text", ["image", "text"], false⟩).steps ∧
    MainStep.loadModelCall ∉
      (main ⟨true, false, none, "img", "text", ["image", "text"], false⟩).steps :=
  c8_column_validation ⟨true, false, none, "img", "text", ["image", "text"], false⟩
    rfl (Or.inl rfl) (Or.inl (by decide))

/-- C9: the evaluation-split loading branch reads the data-argument
attributes `dataset_name_or_path` and `dataset_subset_name`, neither of
which is among the fields declared on `DataTrainingArguments` (which
declares `dataset_name` and `dataset_config_name` instead); consequently
every run that takes this branch raises `AttributeError` on the first such
read and never loads the evaluation split. -/
theorem c9_eval_branch_attr_mismatch :
    "dataset_name_or_path" ∉ dataTrainingArgumentFields ∧
    "dataset_subset_name" ∉ dataTrainingArgumentFields ∧
    "dataset_name" ∈ dataTrainingArgumentFields ∧
    "dataset_config_name" ∈ dataTrainingArgumentFields ∧
    "dataset_name_or_path" ∈ evalBranchDataAttrs ∧
    "dataset_subset_name" ∈ evalBranchDataAttrs ∧
    (∀ cfg : RunConfig, cfg.do_eval = true →
      cfg.eval_split_name.isSome = true →
      (main cfg).error = some (.attrError "dataset_name_or_path") ∧
      MainStep.loadEvalSplit ∉ (main cfg).steps) := by
  refine ⟨by decide, by decide, by decide, by decide, by decide, by decide,
          ?_⟩
  intro cfg h1 h2
  constructor
  · simp [main, h1, h2]
  · simp only [main, h1, h2, Bool.and_self, if_true]
    cases htr : cfg.do_train <;> simp

/-- C9 witness: a run requesting evaluation with a named evaluation split
dies with the `AttributeError` and performs no evaluation-split load. -/
theorem c9_eval_branch_attr_mismatch_witness :
    (main ⟨true, true, some "validation", "image", "text",
        ["image", "text"], false⟩).error =
      some (.attrError "dataset_name_or_path") ∧
    MainStep.loadEvalSplit ∉
      (main ⟨true, true, some "validation", "image", "text",
        ["image", "text"], false⟩).steps :=
  c9_eval_branch_attr_mismatch.2.2.2.2.2.2
    ⟨true, true, some "validation", "image", "text", ["image", "text"], false⟩
    rfl rfl

/-- C10: the claim states the 85/15 partition happens whenever
`eval_split_name` is None OR empty, regardless of `do_eval`.  But the
branch guard is `do_eval and eval_split_name is not None`: the empty
string IS `not None`, so a run with `do_eval` set and `eval_split_name`
equal to `""` takes the evaluation-split loading branch (and dies on its
`AttributeError`) instead of partitioning. -/
theorem c10_counterexample :
    MainStep.trainTestSplit 15 ∉
      (main ⟨true, true, some "", "image", "text",
        ["image", "text"], false⟩).steps ∧
    (main ⟨true, true, some "", "image", "text",
        ["image", "text"], false⟩).validation = none ∧
    (main ⟨true, true, some "", "image", "text",
        ["image", "text"], false⟩).error =
      some (.attrError "dataset_name_or_path") :=
  ⟨by decide, rfl, rfl⟩

/-- C10 (amended): for every run that loads a training split (`do_train`
set) in which `eval_split_name` is None — regardless of `do_eval` — or is
the empty string while `do_eval` is unset, the loaded training dataset is
partitioned by `train_test_split(test_size=0.15)` and the validation
dataset is the held-out 15% rather than a separately loaded split.  (When
`eval_split_name` is the empty string and `do_eval` is set, the
evaluation-split loading branch is taken instead; see the
counterexample.) -/
theorem c10_train_test_split (cfg : RunConfig) (htrain : cfg.do_train = true)
    (h : cfg.eval_split_name = none ∨
      (cfg.eval_split_name = some "" ∧ cfg.do_eval = false)) :
    MainStep.trainTestSplit 15 ∈ (main cfg).steps ∧
    (main cfg).validation = some (.heldOutSplit 15) := by
  have hguard : (cfg.do_eval && cfg.eval_split_name.isSome) = false := by
    rcases h with h' | ⟨h1, h2⟩
    · simp [h']
    · simp [h2]
  have htr : truthy cfg.eval_split_name = false := by
    rcases h with h1 | ⟨h1, h2⟩
    · simp [h1, truthy]
    · simp [h1, truthy]
  have hmain : main cfg = mainAfterLoad cfg
      ([MainStep.loadTrainSplit] ++ [MainStep.trainTestSplit 15]) true
      (some (.heldOutSplit 15)) := by
    simp [main, hguard, htr, htrain]
  obtain ⟨hsteps, hval⟩ := mainAfterLoad_facts cfg
    ([MainStep.loadTrainSplit] ++ [MainStep.trainTestSplit 15]) true
    (some (.heldOutSplit 15))
  rw [hmain]
  exact ⟨hsteps _ (by decide), hval⟩

/-- C10 witness: a run with `do_train` and `do_eval` both set and no
`eval_split_name`: the training dataset is partitioned and the validation
dataset is the held-out 15%. -/
theorem c10_train_test_split_witness :
    MainStep.trainTestSplit 15 ∈
      (main ⟨true, true, none, "image", "text",
        ["image", "text"], false⟩).steps ∧
    (main ⟨true, true, none, "image", "text",
        ["image", "text"], false⟩).validation = some (.heldOutSplit 15) :=
  c10_train_test_split
    ⟨true, true, none, "image", "text", ["image", "text"], false⟩
    rfl (Or.inl rfl)

end ImageCap
